import Mathlib

/- Verification development for the Nova scanning-ingestion service.

   The server side (api/main.py) is embedded shallowly: database tables are
   lists of rows, the storage HEAD oracle is an explicit status function, and
   each HTTP handler is a pure function from a request and the database to a
   result (Except over an HTTP-error record) paired with the database it
   leaves behind.  The client side (scripts/device_simulator.py) is embedded
   with network outcomes supplied by an environment record. -/

deriving instance DecidableEq for Except

inductive JobStatus where
  | CREATED
  | SCANNING
  | PAUSED
  | PROCESSING
  | DONE
  | FAILED
deriving DecidableEq

def JobStatus.str : JobStatus → String
  | .CREATED => "CREATED"
  | .SCANNING => "SCANNING"
  | .PAUSED => "PAUSED"
  | .PROCESSING => "PROCESSING"
  | .DONE => "DONE"
  | .FAILED => "FAILED"

inductive ImageType where
  | UV_FREE
  | ASET
deriving DecidableEq

inductive SignedUrlMode where
  | both
  | previews
  | originals
deriving DecidableEq

structure OrgRow where
  slug : String
  id : String
deriving DecidableEq

structure JobRow where
  id : String
  org_id : String
  status : JobStatus
  paused_at : Option String
  ended_at : Option String
deriving DecidableEq

structure RingRow where
  id : String
  job_id : String
  ring_label : String
deriving DecidableEq

structure DiamondRow where
  id : String
  job_id : String
  ring_id : String
  slot_index : Nat
deriving DecidableEq

structure ImageRow where
  diamond_id : String
  image_type : ImageType
  storage_path : String
  preview_storage_path : String
  preview_ready : Bool
  original_ready : Bool
  original_uploaded_at : Option String
deriving DecidableEq

structure DB where
  orgs : List OrgRow
  jobs : List JobRow
  rings : List RingRow
  diamonds : List DiamondRow
  diamond_images : List ImageRow
  nextId : Nat
deriving DecidableEq

/-- HTTP-level error raised by a handler (HTTPException in the source).  For
the confirm-originals conflict the detail payload also carries the list of
missing storage paths. -/
structure HErr where
  status : Nat
  detail : String
  missing : List String
deriving DecidableEq

def ORIGINALS_BUCKET : String := "diamond-images"
def PREVIEWS_BUCKET : String := "diamond-previews"

/-- Canonical storage path stem, from the f-strings in main.py:
org_slug/job_id/ring_label/slot_{slot_index}. -/
def canonical_base (org_slug job_id ring_label : String) (slot_index : Nat) : String :=
  org_slug ++ "/" ++ job_id ++ "/" ++ ring_label ++ "/slot_" ++ toString slot_index

structure JobControlResponse where
  job_id : String
  status : JobStatus
deriving DecidableEq

structure SignedUploadRequest where
  org_slug : String
  job_id : String
  ring_label : String
  slot_index : Nat
  mode : SignedUrlMode
deriving DecidableEq

structure SignedUploadResponse where
  job_id : String
  uv_free_path : String
  aset_path : String
  uv_free_signed_url : String
  aset_signed_url : String
  uv_free_preview_path : String
  aset_preview_path : String
  uv_free_preview_signed_url : String
  aset_preview_signed_url : String
deriving DecidableEq

structure CreateScanRequest where
  org_slug : String
  job_id : String
  ring_label : String
  slot_index : Nat
  uv_free_path : String
  aset_path : String
  uv_free_preview_path : Option String
  aset_preview_path : Option String
  device_name : Option String
deriving DecidableEq

structure IngestResponse where
  job_id : String
  ring_id : String
  diamond_id : String
deriving DecidableEq

structure ConfirmOriginalsRequest where
  org_slug : String
  job_id : String
  ring_label : String
  slot_index : Nat
  image_types : List ImageType
deriving DecidableEq

structure ConfirmOriginalsResponse where
  job_id : String
  diamond_id : String
  confirmed : List ImageType
  missing : List String
deriving DecidableEq

def org_find (db : DB) (slug : String) : Option OrgRow :=
  db.orgs.find? (fun o => decide (o.slug = slug))

def get_org_id_by_slug (db : DB) (slug : String) : Except HErr String :=
  match org_find db slug with
  | some o => .ok o.id
  | none => .error ⟨404, "org_slug " ++ slug ++ " not found", []⟩

def job_find (db : DB) (job_id : String) : Option JobRow :=
  db.jobs.find? (fun j => decide (j.id = job_id))

def ensure_job_exists (db : DB) (job_id org_id : String) : Except HErr JobRow :=
  match job_find db job_id with
  | none => .error ⟨404, "job_id not found", []⟩
  | some j =>
      if j.org_id = org_id then .ok j
      else .error ⟨403, "job_id does not belong to this org", []⟩

def ring_find (db : DB) (job_id ring_label : String) : Option RingRow :=
  db.rings.find? (fun r => decide (r.job_id = job_id ∧ r.ring_label = ring_label))

/-- Fresh row id; the source uses database-generated uuids, modelled by a
counter carried in the state. -/
def freshId (db : DB) : String := "id" ++ toString db.nextId

def get_or_create_ring (db : DB) (job_id ring_label : String) : String × DB :=
  match ring_find db job_id ring_label with
  | some r => (r.id, db)
  | none =>
      let rid := freshId db
      (rid, { db with rings := db.rings ++ [⟨rid, job_id, ring_label⟩], nextId := db.nextId + 1 })

/-- Update of the jobs table by id (supabase .update().eq("id", job_id)). -/
def set_job (db : DB) (job_id : String) (f : JobRow → JobRow) : DB :=
  { db with jobs := db.jobs.map (fun j => if j.id = job_id then f j else j) }

def jobs_pause (db : DB) (job_id org_slug now : String) :
    Except HErr JobControlResponse × DB :=
  match get_org_id_by_slug db org_slug with
  | .error e => (.error e, db)
  | .ok org_id =>
      match ensure_job_exists db job_id org_id with
      | .error e => (.error e, db)
      | .ok _ =>
          (.ok ⟨job_id, .PAUSED⟩,
           set_job db job_id (fun j => { j with status := .PAUSED, paused_at := some now }))

def jobs_resume (db : DB) (job_id org_slug : String) :
    Except HErr JobControlResponse × DB :=
  match get_org_id_by_slug db org_slug with
  | .error e => (.error e, db)
  | .ok org_id =>
      match ensure_job_exists db job_id org_id with
      | .error e => (.error e, db)
      | .ok _ =>
          (.ok ⟨job_id, .SCANNING⟩,
           set_job db job_id (fun j => { j with status := .SCANNING, paused_at := none }))

def jobs_stop (db : DB) (job_id org_slug now : String) :
    Except HErr JobControlResponse × DB :=
  match get_org_id_by_slug db org_slug with
  | .error e => (.error e, db)
  | .ok org_id =>
      match ensure_job_exists db job_id org_id with
      | .error e => (.error e, db)
      | .ok _ =>
          (.ok ⟨job_id, .PROCESSING⟩,
           set_job db job_id (fun j => { j with status := .PROCESSING, ended_at := some now }))

/-- create_signed_urls from main.py.  The storage service call
create_signed_upload_url together with the signedUrl-key extraction is
modelled by the sign function; a none result corresponds to a response
without a url and yields the 500 error of the source. -/
def create_signed_urls (db : DB) (sign : String → String → Option String)
    (p : SignedUploadRequest) : Except HErr SignedUploadResponse :=
  match get_org_id_by_slug db p.org_slug with
  | .error e => .error e
  | .ok org_id =>
      match ensure_job_exists db p.job_id org_id with
      | .error e => .error e
      | .ok _ =>
          let base := canonical_base p.org_slug p.job_id p.ring_label p.slot_index
          let uv_free_path := base ++ "_uv_free.jpg"
          let aset_path := base ++ "_aset.jpg"
          let uv_free_preview_path := base ++ "_uv_free_thumb.jpg"
          let aset_preview_path := base ++ "_aset_thumb.jpg"
          match sign ORIGINALS_BUCKET uv_free_path, sign ORIGINALS_BUCKET aset_path,
                sign PREVIEWS_BUCKET uv_free_preview_path, sign PREVIEWS_BUCKET aset_preview_path with
          | some uv_url, some aset_url, some uv_p_url, some aset_p_url =>
              .ok ⟨p.job_id, uv_free_path, aset_path, uv_url, aset_url,
                   uv_free_preview_path, aset_preview_path, uv_p_url, aset_p_url⟩
          | _, _, _, _ => .error ⟨500, "Unexpected signed upload response", []⟩

/-- The str.startswith checks of the source, as a structurally recursive
character-list comparison (so that it evaluates inside the kernel). -/
def str_starts_with (pre s : String) : Bool :=
  pre.data.isPrefixOf s.data

def dia_find (db : DB) (job_id ring_id : String) (slot_index : Nat) : Option DiamondRow :=
  db.diamonds.find?
    (fun d => decide (d.job_id = job_id ∧ d.ring_id = ring_id ∧ d.slot_index = slot_index))

/-- The two diamond_images rows inserted by ingest_scan.  As in the source,
the storage paths are recomputed canonically from the coordinate, the
client-supplied path fields of the request are not used, preview_ready is
true and original_ready is false. -/
def ingest_rows (diamond_id : String) (p : CreateScanRequest) : List ImageRow :=
  let base := canonical_base p.org_slug p.job_id p.ring_label p.slot_index
  [⟨diamond_id, .UV_FREE, base ++ "_uv_free.jpg", base ++ "_uv_free_thumb.jpg", true, false, none⟩,
   ⟨diamond_id, .ASET, base ++ "_aset.jpg", base ++ "_aset_thumb.jpg", true, false, none⟩]

def ingest_scan (db : DB) (p : CreateScanRequest) : Except HErr IngestResponse × DB :=
  match get_org_id_by_slug db p.org_slug with
  | .error e => (.error e, db)
  | .ok org_id =>
      match ensure_job_exists db p.job_id org_id with
      | .error e => (.error e, db)
      | .ok job =>
          if job.status = .SCANNING ∨ job.status = .PAUSED then
            let rg := get_or_create_ring db p.job_id p.ring_label
            match dia_find rg.2 p.job_id rg.1 p.slot_index with
            | some _ =>
                (.error ⟨409, "Diamond already exists for this job / ring / slot_index", []⟩, rg.2)
            | none =>
                let diamond_id := freshId rg.2
                let newDia : DiamondRow := ⟨diamond_id, p.job_id, rg.1, p.slot_index⟩
                let db2 : DB := { rg.2 with
                  diamonds := rg.2.diamonds ++ [newDia],
                  nextId := rg.2.nextId + 1 }
                let db3 : DB := { db2 with diamond_images := db2.diamond_images ++ ingest_rows diamond_id p }
                (.ok ⟨p.job_id, rg.1, diamond_id⟩, db3)
          else
            (.error ⟨409, "job status is " ++ job.status.str ++ ", cannot ingest", []⟩, db)

/-- storage_object_exists from main.py: HTTP HEAD against the storage service,
200 means the object exists, 404 means it does not, anything else raises 502.
The head function gives the status the storage service answers for a
bucket/path pair. -/
def storage_object_exists (head : String → String → Nat) (bucket path : String) :
    Except HErr Bool :=
  let s := head bucket path
  if s = 200 then .ok true
  else if s = 404 then .ok false
  else .error ⟨502, "Storage HEAD unexpected status", []⟩

/-- Expected originals paths of confirm_originals (the canonical path of the
request coordinate for each image type). -/
def expected_original_path (p : ConfirmOriginalsRequest) : ImageType → String
  | .UV_FREE => canonical_base p.org_slug p.job_id p.ring_label p.slot_index ++ "_uv_free.jpg"
  | .ASET => canonical_base p.org_slug p.job_id p.ring_label p.slot_index ++ "_aset.jpg"

/-- Steps 1-4 of confirm_originals: resolve org, job (with org ownership),
ring and diamond; returns the diamond id. -/
def confirm_lookups (db : DB) (p : ConfirmOriginalsRequest) : Except HErr String :=
  match org_find db p.org_slug with
  | none => .error ⟨404, "org_slug " ++ p.org_slug ++ " not found", []⟩
  | some o =>
      match job_find db p.job_id with
      | none => .error ⟨404, "job_id not found", []⟩
      | some j =>
          if j.org_id = o.id then
            match ring_find db p.job_id p.ring_label with
            | none => .error ⟨404, "ring not found for job_id + ring_label", []⟩
            | some rg =>
                match dia_find db p.job_id rg.id p.slot_index with
                | none => .error ⟨404, "diamond not found for job_id + ring_label + slot_index", []⟩
                | some d => .ok d.id
          else .error ⟨403, "job_id does not belong to this org", []⟩

/-- Step 6 of confirm_originals: walk the requested image types in order,
enforcing the org- and job-prefix ownership checks, asking the storage oracle
for each expected path, and splitting the requests into confirmed image types
and missing storage paths. -/
def check_images (head : String → String → Nat) (p : ConfirmOriginalsRequest) :
    List ImageType → Except HErr (List ImageType × List String)
  | [] => .ok ([], [])
  | t :: ts =>
      let path := expected_original_path p t
      if !(str_starts_with (p.org_slug ++ "/") path) then
        .error ⟨403, "path not in org: " ++ path, []⟩
      else if !(str_starts_with (p.org_slug ++ "/" ++ p.job_id ++ "/") path) then
        .error ⟨403, "path not in job: " ++ path, []⟩
      else
        match storage_object_exists head ORIGINALS_BUCKET path with
        | .error e => .error e
        | .ok true =>
            match check_images head p ts with
            | .error e => .error e
            | .ok (cs, ms) => .ok (t :: cs, ms)
        | .ok false =>
            match check_images head p ts with
            | .error e => .error e
            | .ok (cs, ms) => .ok (cs, path :: ms)

/-- One update of step 7: set original_ready and original_uploaded_at on the
rows matching a diamond id and image type. -/
def mark_one (did now : String) (t : ImageType) (imgs : List ImageRow) : List ImageRow :=
  imgs.map fun r =>
    if r.diamond_id = did ∧ r.image_type = t then
      { r with original_ready := true, original_uploaded_at := some now }
    else r

/-- Step 7 of confirm_originals: the per-type update loop. -/
def mark_ready (did now : String) (confirmed : List ImageType) (imgs : List ImageRow) :
    List ImageRow :=
  confirmed.foldl (fun acc t => mark_one did now t acc) imgs

def confirm_originals (db : DB) (head : String → String → Nat)
    (p : ConfirmOriginalsRequest) (now : String) :
    Except HErr ConfirmOriginalsResponse × DB :=
  match confirm_lookups db p with
  | .error e => (.error e, db)
  | .ok did =>
      match check_images head p p.image_types with
      | .error e => (.error e, db)
      | .ok (confirmed, missing) =>
          if missing ≠ [] then
            (.error ⟨409, "originals not found in storage yet", missing⟩, db)
          else
            (.ok ⟨p.job_id, did, confirmed, []⟩,
             { db with diamond_images := mark_ready did now confirmed db.diamond_images })

/-- Status of a job row as recorded in the database. -/
def job_status (db : DB) (job_id : String) : Option JobStatus :=
  (job_find db job_id).map (fun j => j.status)

/-- One API operation against the database.  The confirm operation carries the
storage oracle it observes and the server timestamp. -/
inductive Op where
  | pause (job_id org_slug now : String)
  | resume (job_id org_slug : String)
  | stop (job_id org_slug now : String)
  | signed (sign : String → String → Option String) (p : SignedUploadRequest)
  | ingest (p : CreateScanRequest)
  | confirm (head : String → String → Nat) (p : ConfirmOriginalsRequest) (now : String)

/-- Database left behind by an operation (create_signed_urls never writes the
database). -/
def applyOp (db : DB) : Op → DB
  | .pause j s now => (jobs_pause db j s now).2
  | .resume j s => (jobs_resume db j s).2
  | .stop j s now => (jobs_stop db j s now).2
  | .signed _ _ => db
  | .ingest p => (ingest_scan db p).2
  | .confirm head p now => (confirm_originals db head p now).2

def defaultImageRow : ImageRow := ⟨"", .UV_FREE, "", "", false, false, none⟩

/- ------------------------------------------------------------------
   Client side: scripts/device_simulator.py
   ------------------------------------------------------------------ -/

/-- Outcome of one HTTP request as seen by the device: either a transport
error (the except branch of safe_request) or a response with a status code
and a parsed json body modelled as a key/value list. -/
inductive HttpOutcome where
  | netError
  | response (status : Nat) (body : List (String × String))
deriving DecidableEq

structure SafeResult where
  ok : Bool
  body : List (String × String)
  err : Option String
deriving DecidableEq

/-- safe_request from device_simulator.py.  Note that both the 5xx/429 branch
and the 4xx branch return ok = false; they differ only in the error text. -/
def safe_request (o : HttpOutcome) : SafeResult :=
  match o with
  | .netError => ⟨false, [], some ("network error")⟩
  | .response s body =>
      if 500 ≤ s ∨ s = 429 then ⟨false, [], some ("server busy")⟩
      else if 400 ≤ s then ⟨false, [], some ("client error")⟩
      else ⟨true, body, none⟩

structure QState where
  preview_uploaded : Bool
  ingested : Bool
  original_uploaded : Bool
  originals_confirmed : Bool
deriving DecidableEq

/-- A queue item.  The storage paths and signed urls carried by the source
dict only feed the network calls, whose outcomes are supplied by the
environment, so they are not tracked here. -/
structure QItem where
  typ : String
  job_id : String
  slot_index : Nat
  state : QState
deriving DecidableEq

/-- Config fields of the simulator that influence control flow. -/
structure DevConfig where
  upload_originals_mode : String
  slots : Nat
deriving DecidableEq

/-- Network outcomes observed while processing one queue item: the two
preview PUTs, the ingest POST, the two original PUTs and the confirm POST. -/
structure NetEnv where
  uvPreviewPut : Bool
  asetPreviewPut : Bool
  ingestResp : HttpOutcome
  uvOriginalPut : Bool
  asetOriginalPut : Bool
  confirmResp : HttpOutcome

/-- process_queue_item from device_simulator.py.  Steps run in the fixed
order preview, ingest, originals, confirm; a step failure returns false
together with the item as mutated so far (the source mutates the dict in
place). -/
def process_queue_item (cfg : DevConfig) (env : NetEnv) (item : QItem) : Bool × QItem :=
  if item.typ ≠ "UPLOAD_AND_INGEST" then (true, item)
  else
    let s1 : Option QItem :=
      if item.state.preview_uploaded then some item
      else if env.uvPreviewPut && env.asetPreviewPut then
        some { item with state := { item.state with preview_uploaded := true } }
      else none
    match s1 with
    | none => (false, item)
    | some item1 =>
        let s2 : Option QItem :=
          if item1.state.ingested then some item1
          else if (safe_request env.ingestResp).ok then
            some { item1 with state := { item1.state with ingested := true } }
          else none
        match s2 with
        | none => (false, item1)
        | some item2 =>
            if cfg.upload_originals_mode = "never" then (true, item2)
            else
              let s3 : Option QItem :=
                if item2.state.original_uploaded then some item2
                else if env.uvOriginalPut && env.asetOriginalPut then
                  some { item2 with state := { item2.state with original_uploaded := true } }
                else none
              match s3 with
              | none => (false, item2)
              | some item3 =>
                  let s4 : Option QItem :=
                    if item3.state.originals_confirmed then some item3
                    else if (safe_request env.confirmResp).ok then
                      some { item3 with state := { item3.state with originals_confirmed := true } }
                    else none
                  match s4 with
                  | none => (false, item3)
                  | some item4 => (true, item4)

/-- drain_queue loop body: successfully processed items are removed; the
first failing item is kept (with its mutated state) and the loop breaks,
dropping the remaining items from the saved queue, exactly as the source
does. -/
def drain_go (cfg : DevConfig) (envs : Nat → NetEnv) : Nat → List QItem → List QItem
  | _, [] => []
  | i, item :: rest =>
      let pr := process_queue_item cfg (envs i) item
      if pr.1 then drain_go cfg envs (i + 1) rest
      else [pr.2]

def drain_queue (cfg : DevConfig) (envs : Nat → NetEnv) (q : List QItem) : List QItem :=
  drain_go cfg envs 0 q

/-- Network outcomes observed by one full run of main. -/
structure MainEnv where
  drainEnvs : Nat → NetEnv
  jobStartResp : HttpOutcome
  signedUrlsResp : Nat → HttpOutcome
  slotEnv : Nat → NetEnv
  delayedEnv : Nat → NetEnv
  stopResp : HttpOutcome

structure RunResult where
  queueFinal : List QItem
  jobStarted : Option String
  itemsBuilt : List QItem
  crashed : Bool
deriving DecidableEq

/-- Slot loop of main: per slot, request signed urls, build the work item
stamped with the server-issued job id and process it according to the upload
mode; a failure enqueues the partially processed item durably and breaks. -/
def slot_loop (cfg : DevConfig) (env : MainEnv) (jid : String) :
    Nat → Nat → List QItem → List QItem → List QItem →
    List QItem × List QItem × List QItem
  | 0, _, q, dly, built => (q, dly, built)
  | rem + 1, slot, q, dly, built =>
      let su := safe_request (env.signedUrlsResp slot)
      if !su.ok then (q, dly, built)
      else
        let item : QItem := ⟨"UPLOAD_AND_INGEST", jid, slot, ⟨false, false, false, false⟩⟩
        let built1 := built ++ [item]
        if cfg.upload_originals_mode = "immediate" then
          let pr := process_queue_item cfg (env.slotEnv slot) item
          if pr.1 then slot_loop cfg env jid rem (slot + 1) q dly built1
          else (q ++ [pr.2], dly, built1)
        else
          let pr := process_queue_item { cfg with upload_originals_mode := "never" }
            (env.slotEnv slot) item
          if pr.1 then
            if cfg.upload_originals_mode = "delayed" then
              slot_loop cfg env jid rem (slot + 1) q (dly ++ [pr.2]) built1
            else slot_loop cfg env jid rem (slot + 1) q dly built1
          else (q ++ [pr.2], dly, built1)

/-- Delayed-originals phase of main: process each postponed item fully; on
failure enqueue it durably and break. -/
def delayed_loop (cfg : DevConfig) (env : MainEnv) : Nat → List QItem → List QItem → List QItem
  | _, q, [] => q
  | i, q, item :: rest =>
      let pr := process_queue_item cfg (env.delayedEnv i) item
      if pr.1 then delayed_loop cfg env (i + 1) q rest
      else q ++ [pr.2]

/-- main from device_simulator.py: drain the durable queue, then start a job
online; when jobs_start cannot be reached the run prints an error and
returns - no temporary job id is minted and nothing is queued.  A response
without a job_id raises RuntimeError (crashed).  Otherwise the slot loop and
the delayed-originals phase run, and the final stop call cannot fail the
run. -/
def main_run (cfg : DevConfig) (env : MainEnv) (queue0 : List QItem) : RunResult :=
  let q1 := drain_queue cfg env.drainEnvs queue0
  let sr := safe_request env.jobStartResp
  if !sr.ok then ⟨q1, none, [], false⟩
  else
    match sr.body.find? (fun kv => decide (kv.1 = "job_id")) with
    | none => ⟨q1, none, [], true⟩
    | some kv =>
        let jid := kv.2
        let res := slot_loop cfg env jid cfg.slots 0 q1 [] []
        let q3 :=
          if cfg.upload_originals_mode = "delayed" ∧ res.2.1 ≠ [] then
            delayed_loop cfg env 0 res.1 res.2.1
          else res.1
        let _ := safe_request env.stopResp
        ⟨q3, some jid, res.2.2, false⟩

/- ------------------------------------------------------------------
   Concrete sample data used by witnesses and counterexamples
   ------------------------------------------------------------------ -/

def org0 : OrgRow := ⟨"acme", "org-1"⟩
def job0 : JobRow := ⟨"job-1", "org-1", .SCANNING, none, none⟩
def ring0 : RingRow := ⟨"ring-1", "job-1", "A"⟩
def dia0 : DiamondRow := ⟨"dia-1", "job-1", "ring-1", 0⟩
def uv_path0 : String := "acme/job-1/A/slot_0_uv_free.jpg"
def aset_path0 : String := "acme/job-1/A/slot_0_aset.jpg"
def img_uv0 : ImageRow :=
  ⟨"dia-1", .UV_FREE, uv_path0, "acme/job-1/A/slot_0_uv_free_thumb.jpg", true, false, none⟩
def img_aset0 : ImageRow :=
  ⟨"dia-1", .ASET, aset_path0, "acme/job-1/A/slot_0_aset_thumb.jpg", true, false, none⟩

/-- Fresh database: one org, one SCANNING job, nothing ingested yet. -/
def dbS : DB := ⟨[org0], [job0], [], [], [], 0⟩

/-- Database after one slot was ingested at coordinate (job-1, A, 0). -/
def dbI : DB := ⟨[org0], [job0], [ring0], [dia0], [img_uv0, img_aset0], 0⟩

/-- Storage oracle in which only the UV_FREE original object exists. -/
def head_uv_only : String → String → Nat :=
  fun b path => if b = ORIGINALS_BUCKET ∧ path = uv_path0 then 200 else 404

/-- Storage oracle in which both original objects exist. -/
def head_both : String → String → Nat :=
  fun b path => if b = ORIGINALS_BUCKET ∧ (path = uv_path0 ∨ path = aset_path0) then 200 else 404

def scanReq0 : CreateScanRequest :=
  ⟨"acme", "job-1", "A", 0, "client-uv", "client-aset", none, none, none⟩

def confirmReq0 : ConfirmOriginalsRequest := ⟨"acme", "job-1", "A", 0, [.UV_FREE, .ASET]⟩

def sign0 : String → String → Option String := fun b path => some (b ++ ":" ++ path)

def signedReqPrev : SignedUploadRequest := ⟨"acme", "job-1", "A", 0, .previews⟩

/-- Database state after jobs_stop on dbS at timestamp t9. -/
def dbP : DB := ⟨[org0], [⟨"job-1", "org-1", .PROCESSING, none, some ("t9")⟩], [], [], [], 0⟩

/-- Database state after the first successful ingest of scanReq0 on dbS. -/
def dbAfter : DB :=
  ⟨[org0], [job0], [⟨"id0", "job-1", "A"⟩], [⟨"id1", "job-1", "id0", 0⟩],
   [⟨"id1", .UV_FREE, "acme/job-1/A/slot_0_uv_free.jpg", "acme/job-1/A/slot_0_uv_free_thumb.jpg", true, false, none⟩,
    ⟨"id1", .ASET, "acme/job-1/A/slot_0_aset.jpg", "acme/job-1/A/slot_0_aset_thumb.jpg", true, false, none⟩],
   2⟩

def cfgImmediate : DevConfig := ⟨"immediate", 5⟩
def cfgDelayed : DevConfig := ⟨"delayed", 5⟩
def qitem0 : QItem := ⟨"UPLOAD_AND_INGEST", "job-1", 0, ⟨false, false, false, false⟩⟩

/-- Item environment in which the server answers the ingest POST with 409
Conflict and everything else succeeds. -/
def envConflict : NetEnv := ⟨true, true, .response 409 [], true, true, .response 200 []⟩

def envOk : NetEnv := ⟨true, true, .response 200 [], true, true, .response 200 []⟩

/-- Run environment in which the very first jobs_start POST hits a network
error (device offline at job start). -/
def mainEnvOffline : MainEnv :=
  ⟨fun _ => envOk, .netError, fun _ => .response 200 [], fun _ => envOk, fun _ => envOk,
   .response 200 []⟩

/- ------------------------------------------------------------------
   Helper lemmas
   ------------------------------------------------------------------ -/

theorem find?_append_of_none {α} {p : α → Bool} {l1 : List α} (l2 : List α)
    (h : l1.find? p = none) : (l1 ++ l2).find? p = l2.find? p := by
  rw [List.find?_append, h, Option.none_or]

theorem find?_map_of_pred_comm {α} (f : α → α) (p : α → Bool) (l : List α)
    (h : ∀ a, p (f a) = p a) : (l.map f).find? p = (l.find? p).map f := by
  induction l with
  | nil => rfl
  | cons a l ih =>
      cases hpa : p a with
      | true =>
          rw [List.map_cons, List.find?_cons_of_pos _ (by rw [h a]; exact hpa),
            List.find?_cons_of_pos _ hpa]
          rfl
      | false =>
          rw [List.map_cons, List.find?_cons_of_neg _ (by simp [h a, hpa]),
            List.find?_cons_of_neg _ (by simp [hpa]), ih]

/- ------------------------------------------------------------------
   Claim theorems
   ------------------------------------------------------------------ -/

/-- Claim C1, counterexample: a confirm-originals request whose ASET original
is absent from storage does not complete normally with a confirmed/missing
split; the handler raises HTTP 409 Conflict carrying the missing path (and
leaves the database untouched). -/
theorem confirm_missing_raises_conflict_409 :
    confirm_originals dbI head_uv_only confirmReq0 ("t1") =
      (.error ⟨409, "originals not found in storage yet", ["acme/job-1/A/slot_0_aset.jpg"]⟩, dbI) := by
  decide

/-- Claim C2, counterexample: stopping a job does not permanently reject
ingestion.  After jobs_stop followed by jobs_resume (which unconditionally
sets the status back to SCANNING), an ingest-scan for the job is accepted
and creates a diamond, refuting that every later ingest-scan fails with
Conflict. -/
theorem ingest_accepted_after_stop_then_resume :
    (ingest_scan ((jobs_resume (jobs_stop dbS ("job-1") ("acme") ("t1")).2 ("job-1") ("acme")).2)
      scanReq0).1 = .ok ⟨"job-1", "id0", "id1"⟩ := by
  decide

/-- Claim C6, code evaluation at the failing input: when the very first
jobs_start request fails with a network error, main prints an error and
returns.  No temporary job id is minted, no job_start task is queued, no
slot task is built or queued, so the remap of temporary ids described by the
specification never happens in this code. -/
theorem offline_job_start_aborts_without_queueing :
    main_run cfgDelayed mainEnvOffline [] = ⟨[], none, [], false⟩ := by
  decide

/-- Claim C7, code evaluation at the failing input: the server answers the
ingest POST of a queued item with 409 Conflict, a terminal error.
safe_request classifies it ok = false exactly like a transport error (only
the message text says client error), process_queue_item therefore reports
failure, and drain_queue keeps the item in the durable queue for endless
re-attempts instead of dropping it. -/
theorem terminal_conflict_item_kept_in_queue :
    (safe_request (.response 409 [])).ok = false ∧
    (safe_request (.response 409 [])).err = some ("client error") ∧
    drain_queue cfgImmediate (fun _ => envConflict) [qitem0] =
      [⟨"UPLOAD_AND_INGEST", "job-1", 0, ⟨true, false, false, false⟩⟩] := by
  decide

/-- Claim C8, counterexample: a signed-urls request with mode = previews does
not receive only the two preview pairs; the handler mints and returns all
four path/url pairs, including both originals. -/
theorem signed_urls_previews_mode_mints_all_four :
    create_signed_urls dbS sign0 signedReqPrev =
      .ok ⟨"job-1", "acme/job-1/A/slot_0_uv_free.jpg", "acme/job-1/A/slot_0_aset.jpg",
        "diamond-images:acme/job-1/A/slot_0_uv_free.jpg",
        "diamond-images:acme/job-1/A/slot_0_aset.jpg",
        "acme/job-1/A/slot_0_uv_free_thumb.jpg", "acme/job-1/A/slot_0_aset_thumb.jpg",
        "diamond-previews:acme/job-1/A/slot_0_uv_free_thumb.jpg",
        "diamond-previews:acme/job-1/A/slot_0_aset_thumb.jpg"⟩ := by
  decide

/-- Claim C8, amended: the result of the signed-urls handler is independent
of the request mode field; the handler computes the same four canonical
path/signed-url pairs for every mode. -/
theorem signed_urls_mode_ignored (db : DB) (sign : String → String → Option String)
    (p : SignedUploadRequest) (m : SignedUrlMode) :
    create_signed_urls db sign { p with mode := m } = create_signed_urls db sign p := rfl

/-- Claim C9, counterexample: an ingest-scan request supplying no preview
paths still produces two image rows with preview_ready = true, refuting that
preview_ready is set only if a preview path was supplied. -/
theorem ingest_preview_ready_without_preview_paths :
    scanReq0.uv_free_preview_path = none ∧ scanReq0.aset_preview_path = none ∧
    (ingest_scan dbS scanReq0).2.diamond_images.map ImageRow.preview_ready = [true, true] := by
  decide

/-- Claim C10: the full result of ingest-scan (response and database) is
unchanged when the four client-supplied path fields of the request are
replaced by arbitrary values, because the handler recomputes all storage
paths canonically from the coordinate and never reads those fields. -/
theorem ingest_ignores_client_supplied_paths (db : DB) (p : CreateScanRequest)
    (a b : String) (c d : Option String) :
    ingest_scan db
        { p with
          uv_free_path := a
          aset_path := b
          uv_free_preview_path := c
          aset_preview_path := d } =
      ingest_scan db p := rfl



theorem storage_object_exists_404 {head : String → String → Nat} {b path : String}
    (h : head b path = 404) : storage_object_exists head b path = .ok false := by
  simp [storage_object_exists, h]

theorem storage_object_exists_ok_true {head : String → String → Nat} {b path : String}
    (h : storage_object_exists head b path = .ok true) : head b path = 200 := by
  simp only [storage_object_exists] at h
  split at h
  · assumption
  · split at h <;> simp_all

theorem expected_path_decomp (p : ConfirmOriginalsRequest) (t : ImageType) :
    expected_original_path p t =
      (p.org_slug ++ "/" ++ p.job_id ++ "/") ++ (p.ring_label ++ "/slot_" ++
        toString p.slot_index ++ (match t with | .UV_FREE => "_uv_free.jpg" | .ASET => "_aset.jpg")) := by
  cases t <;> simp [expected_original_path, canonical_base, String.append_assoc]

theorem check_pre1 (p : ConfirmOriginalsRequest) (t : ImageType) :
    str_starts_with (p.org_slug ++ "/") (expected_original_path p t) = true := by
  have h : expected_original_path p t =
      (p.org_slug ++ "/") ++ (p.job_id ++ "/" ++ p.ring_label ++ "/slot_" ++
        toString p.slot_index ++ (match t with | .UV_FREE => "_uv_free.jpg" | .ASET => "_aset.jpg")) := by
    cases t <;> simp [expected_original_path, canonical_base, String.append_assoc]
  rw [h]
  simp only [str_starts_with, String.data_append]
  exact List.isPrefixOf_iff_prefix.mpr (List.prefix_append _ _)

theorem check_pre2 (p : ConfirmOriginalsRequest) (t : ImageType) :
    str_starts_with (p.org_slug ++ "/" ++ p.job_id ++ "/") (expected_original_path p t) = true := by
  rw [expected_path_decomp]
  simp only [str_starts_with, String.data_append]
  exact List.isPrefixOf_iff_prefix.mpr (List.prefix_append _ _)

theorem check_images_cons (head : String → String → Nat) (p : ConfirmOriginalsRequest)
    (t0 : ImageType) (ts : List ImageType) :
    check_images head p (t0 :: ts) =
      match storage_object_exists head ORIGINALS_BUCKET (expected_original_path p t0) with
      | .error e => .error e
      | .ok true =>
          match check_images head p ts with
          | .error e => .error e
          | .ok (cs, ms) => .ok (t0 :: cs, ms)
      | .ok false =>
          match check_images head p ts with
          | .error e => .error e
          | .ok (cs, ms) => .ok (cs, expected_original_path p t0 :: ms) := by
  simp only [check_images, check_pre1, check_pre2, Bool.not_true, Bool.false_eq_true,
    if_false]

theorem check_images_missing_mem (head : String → String → Nat) (p : ConfirmOriginalsRequest) :
    ∀ (ts cs : List ImageType) (ms : List String),
      check_images head p ts = .ok (cs, ms) →
      ∀ t ∈ ts, head ORIGINALS_BUCKET (expected_original_path p t) = 404 →
        expected_original_path p t ∈ ms := by
  intro ts
  induction ts with
  | nil =>
      intro cs ms hok t ht
      exact absurd ht (List.not_mem_nil t)
  | cons t0 ts ih =>
      intro cs ms hok t ht h404
      rw [check_images_cons] at hok
      rcases hsoe : storage_object_exists head ORIGINALS_BUCKET (expected_original_path p t0)
        with e2 | b
      · rw [hsoe] at hok; exact absurd hok (by simp)
      · rcases hrec : check_images head p ts with e2 | ⟨cs0, ms0⟩
        · rw [hsoe, hrec] at hok
          cases b <;> exact absurd hok (by simp)
        · rw [hsoe, hrec] at hok
          cases b
          · simp only [Except.ok.injEq, Prod.mk.injEq] at hok
            obtain ⟨hcs, hms⟩ := hok
            rcases List.mem_cons.mp ht with heqt | hmem
            · subst heqt
              rw [← hms]
              exact List.mem_cons_self _ _
            · rw [← hms]
              exact List.mem_cons_of_mem _ (ih cs0 ms0 hrec t hmem h404)
          · simp only [Except.ok.injEq, Prod.mk.injEq] at hok
            obtain ⟨hcs, hms⟩ := hok
            rcases List.mem_cons.mp ht with heqt | hmem
            · subst heqt
              rw [storage_object_exists_404 h404] at hsoe
              simp at hsoe
            · rw [← hms]
              exact ih cs0 ms0 hrec t hmem h404

theorem check_images_confirmed_mem (head : String → String → Nat) (p : ConfirmOriginalsRequest) :
    ∀ (ts cs : List ImageType) (ms : List String),
      check_images head p ts = .ok (cs, ms) →
      ∀ t ∈ cs, t ∈ ts ∧
        storage_object_exists head ORIGINALS_BUCKET (expected_original_path p t) = .ok true := by
  intro ts
  induction ts with
  | nil =>
      intro cs ms hok t ht
      simp only [check_images, Except.ok.injEq, Prod.mk.injEq] at hok
      obtain ⟨hcs, hms⟩ := hok
      exact absurd (hcs ▸ ht) (List.not_mem_nil t)
  | cons t0 ts ih =>
      intro cs ms hok t ht
      rw [check_images_cons] at hok
      rcases hsoe : storage_object_exists head ORIGINALS_BUCKET (expected_original_path p t0)
        with e2 | b
      · rw [hsoe] at hok; exact absurd hok (by simp)
      · rcases hrec : check_images head p ts with e2 | ⟨cs0, ms0⟩
        · rw [hsoe, hrec] at hok
          cases b <;> exact absurd hok (by simp)
        · rw [hsoe, hrec] at hok
          cases b
          · simp only [Except.ok.injEq, Prod.mk.injEq] at hok
            obtain ⟨hcs, hms⟩ := hok
            obtain ⟨hts, hex⟩ := ih cs0 ms0 hrec t (hcs ▸ ht)
            exact ⟨List.mem_cons_of_mem _ hts, hex⟩
          · simp only [Except.ok.injEq, Prod.mk.injEq] at hok
            obtain ⟨hcs, hms⟩ := hok
            rcases List.mem_cons.mp (hcs ▸ ht) with heqt | hmem
            · subst heqt
              exact ⟨List.mem_cons_self _ _, hsoe⟩
            · obtain ⟨hts, hex⟩ := ih cs0 ms0 hrec t hmem
              exact ⟨List.mem_cons_of_mem _ hts, hex⟩


/-- Claim C5: whenever at least one requested original object is missing
from storage (the oracle answers 404 for its expected canonical path), the
confirm-originals call performs no database mutation at all: the database it
returns is the one it was given, so no diamond_images row original_ready or
original_uploaded_at field changes and readiness is never partially
committed for the subset of objects that do exist. -/
theorem confirm_missing_no_db_mutation (db : DB) (head : String → String → Nat)
    (p : ConfirmOriginalsRequest) (now : String) (t : ImageType)
    (ht : t ∈ p.image_types)
    (hmiss : head ORIGINALS_BUCKET (expected_original_path p t) = 404) :
    (confirm_originals db head p now).2 = db := by
  simp only [confirm_originals]
  split
  · rfl
  · split
    · rfl
    · rename_i did hlk cs ms hchk
      split
      · rfl
      · rename_i hnot
        exfalso
        have hms : ms = [] := Decidable.not_not.mp hnot
        have hmem := check_images_missing_mem head p p.image_types cs ms hchk t ht hmiss
        rw [hms] at hmem
        exact absurd hmem (List.not_mem_nil _)

/-- Claim C5 witness: in the sample state the ASET original is requested but
missing, and confirm-originals leaves the database unchanged. -/
theorem confirm_missing_no_db_mutation_witness :
    (ImageType.ASET ∈ confirmReq0.image_types ∧
     head_uv_only ORIGINALS_BUCKET (expected_original_path confirmReq0 .ASET) = 404) ∧
    (confirm_originals dbI head_uv_only confirmReq0 ("t1")).2 = dbI :=
  ⟨⟨by decide, by decide⟩,
   confirm_missing_no_db_mutation dbI head_uv_only confirmReq0 ("t1") .ASET (by decide) (by decide)⟩

/-- Claim C1, amended: when some requested original object is missing from
storage the call does not complete normally; it fails with 409 Conflict
whose payload lists exactly the missing canonical storage paths, and it
performs no database mutation.  The confirmed/missing response split is
returned only when every requested object exists (and then missing = []). -/
theorem confirm_missing_errors_and_preserves_db (db : DB) (head : String → String → Nat)
    (p : ConfirmOriginalsRequest) (now did : String) (cs : List ImageType) (ms : List String)
    (hlk : confirm_lookups db p = .ok did)
    (hchk : check_images head p p.image_types = .ok (cs, ms))
    (hne : ms ≠ []) :
    confirm_originals db head p now =
      (.error ⟨409, "originals not found in storage yet", ms⟩, db) := by
  simp only [confirm_originals, hlk, hchk]
  simp [hne]

/-- Claim C1 witness: the sample request misses its ASET original; the
lookups succeed, the check loop reports the missing path, and the call
errors with 409 carrying exactly that path, database unchanged. -/
theorem confirm_missing_errors_and_preserves_db_witness :
    confirm_lookups dbI confirmReq0 = .ok ("dia-1") ∧
    check_images head_uv_only confirmReq0 confirmReq0.image_types =
      .ok ([.UV_FREE], ["acme/job-1/A/slot_0_aset.jpg"]) ∧
    confirm_originals dbI head_uv_only confirmReq0 ("t1") =
      (.error ⟨409, "originals not found in storage yet", ["acme/job-1/A/slot_0_aset.jpg"]⟩, dbI) :=
  ⟨by decide, by decide,
   confirm_missing_errors_and_preserves_db dbI head_uv_only confirmReq0 ("t1") ("dia-1")
     [.UV_FREE] ["acme/job-1/A/slot_0_aset.jpg"] (by decide) (by decide) (by decide)⟩

theorem get_org_id_ok {db : DB} {slug oid : String}
    (h : get_org_id_by_slug db slug = .ok oid) :
    ∃ o, org_find db slug = some o ∧ o.id = oid := by
  simp only [get_org_id_by_slug] at h
  rcases hf : org_find db slug with _ | o
  · rw [hf] at h; exact absurd h (by simp)
  · rw [hf] at h
    simp only [Except.ok.injEq] at h
    exact ⟨o, rfl, h⟩

theorem ensure_job_exists_ok {db : DB} {jid oid : String} {job : JobRow}
    (h : ensure_job_exists db jid oid = .ok job) :
    job_find db jid = some job ∧ job.org_id = oid := by
  unfold ensure_job_exists at h
  rcases hf : job_find db jid with _ | j <;> rw [hf] at h
  · exact absurd h (by simp)
  · have h2 : (if j.org_id = oid then (Except.ok j : Except HErr JobRow)
        else .error ⟨403, "job_id does not belong to this org", []⟩) = .ok job := h
    by_cases hor : j.org_id = oid
    · rw [if_pos hor] at h2
      injection h2 with h2
      subst h2
      exact ⟨rfl, hor⟩
    · rw [if_neg hor] at h2
      exact absurd h2 (by simp)

theorem job_find_some_id {db : DB} {jid : String} {job : JobRow}
    (h : job_find db jid = some job) : job.id = jid := by
  have := List.find?_some h
  exact of_decide_eq_true this

theorem job_find_set_job (db : DB) (jid : String) (f : JobRow → JobRow)
    (hpres : ∀ j, (f j).id = j.id) (job : JobRow) (hfind : job_find db jid = some job) :
    job_find (set_job db jid f) jid = some (f job) := by
  have hpred : ∀ j : JobRow,
      (decide ((if j.id = jid then f j else j).id = jid) : Bool) = decide (j.id = jid) := by
    intro j
    by_cases h : j.id = jid <;> simp [h, hpres j]
  have hmap := find?_map_of_pred_comm (fun j => if j.id = jid then f j else j)
      (fun j => decide (j.id = jid)) db.jobs hpred
  have hjid : job.id = jid := job_find_some_id hfind
  simp only [job_find, set_job] at *
  rw [hmap, hfind]
  simp [hjid]

/-- Claim C2, amended: stopping a job sets its status to PROCESSING, and as
long as the status stays PROCESSING every ingest-scan for that job (same
org) fails with 409 Conflict and changes nothing.  The theorem covers the
state right after the stop; it cannot be strengthened to every later call
sequence because jobs_resume and jobs_pause are unguarded and re-enable
ingestion (see the counterexample). -/
theorem ingest_conflict_after_stop_until_resume (db : DB) (jid slug now : String)
    (p : CreateScanRequest) (resp : JobControlResponse) (db2 : DB)
    (hstop : jobs_stop db jid slug now = (.ok resp, db2))
    (hj : p.job_id = jid) (ho : p.org_slug = slug) :
    job_status db2 jid = some .PROCESSING ∧
    ingest_scan db2 p = (.error ⟨409, "job status is PROCESSING, cannot ingest", []⟩, db2) := by
  simp only [jobs_stop] at hstop
  rcases horg : get_org_id_by_slug db slug with e | oid
  · rw [horg] at hstop; exact absurd hstop (by simp)
  · simp only [horg] at hstop
    rcases hjob : ensure_job_exists db jid oid with e | job
    · rw [hjob] at hstop; exact absurd hstop (by simp)
    · simp only [hjob] at hstop
      simp only [Prod.mk.injEq, Except.ok.injEq] at hstop
      obtain ⟨hresp, hdb2⟩ := hstop
      subst hdb2
      obtain ⟨hfind, horgmatch⟩ := ensure_job_exists_ok hjob
      have hjf := job_find_set_job db jid
        (fun j => { j with status := .PROCESSING, ended_at := some now }) (fun j => rfl) job hfind
      constructor
      · simp [job_status, hjf]
      · have hOrg2 : get_org_id_by_slug
            (set_job db jid (fun j => { j with status := .PROCESSING, ended_at := some now }))
            slug = .ok oid := horg
        have hEns2 : ensure_job_exists
            (set_job db jid (fun j => { j with status := .PROCESSING, ended_at := some now }))
            jid oid = .ok { job with status := .PROCESSING, ended_at := some now } := by
          simp [ensure_job_exists, hjf, horgmatch]
        simp only [ingest_scan, ho, hj, hOrg2, hEns2]
        rfl

theorem ingest_conflict_after_stop_until_resume_witness :
    jobs_stop dbS ("job-1") ("acme") ("t9") = (.ok ⟨"job-1", .PROCESSING⟩, dbP) ∧
    (job_status dbP ("job-1") = some .PROCESSING ∧
     ingest_scan dbP scanReq0 =
       (.error ⟨409, "job status is PROCESSING, cannot ingest", []⟩, dbP)) :=
  ⟨by decide,
   ingest_conflict_after_stop_until_resume dbS ("job-1") ("acme") ("t9") scanReq0
     ⟨"job-1", .PROCESSING⟩ dbP (by decide) rfl rfl⟩

theorem get_org_id_congr {dbA dbB : DB} (h : dbA.orgs = dbB.orgs) (slug : String) :
    get_org_id_by_slug dbA slug = get_org_id_by_slug dbB slug := by
  unfold get_org_id_by_slug org_find
  rw [h]

theorem ensure_job_congr {dbA dbB : DB} (h : dbA.jobs = dbB.jobs) (jid oid : String) :
    ensure_job_exists dbA jid oid = ensure_job_exists dbB jid oid := by
  unfold ensure_job_exists job_find
  rw [h]

theorem filter_nil_of_find?_none {α} {pr : α → Bool} {l : List α} (h : l.find? pr = none) :
    l.filter pr = [] := by
  rw [List.filter_eq_nil_iff]
  intro a ha
  exact List.find?_eq_none.mp h a ha


theorem get_or_create_ring_of_found {db : DB} {j l : String} {row : RingRow}
    (hr : ring_find db j l = some row) : get_or_create_ring db j l = (row.id, db) := by
  unfold get_or_create_ring
  rw [hr]

theorem get_or_create_ring_of_new {db : DB} {j l : String}
    (hr : ring_find db j l = none) :
    get_or_create_ring db j l =
      (freshId db,
       { db with rings := db.rings ++ [⟨freshId db, j, l⟩], nextId := db.nextId + 1 }) := by
  unfold get_or_create_ring
  rw [hr]

theorem get_or_create_ring_spec (db : DB) (j l : String) :
    (get_or_create_ring db j l).2.orgs = db.orgs ∧
    (get_or_create_ring db j l).2.jobs = db.jobs ∧
    (get_or_create_ring db j l).2.diamonds = db.diamonds ∧
    (get_or_create_ring db j l).2.diamond_images = db.diamond_images ∧
    ∃ row, ring_find (get_or_create_ring db j l).2 j l = some row ∧
      row.id = (get_or_create_ring db j l).1 := by
  rcases hr : ring_find db j l with _ | row
  · rw [get_or_create_ring_of_new hr]
    refine ⟨rfl, rfl, rfl, rfl, ⟨freshId db, j, l⟩, ?_, rfl⟩
    have hr2 : db.rings.find? (fun rr => decide (rr.job_id = j ∧ rr.ring_label = l)) = none := hr
    show (db.rings ++ [(⟨freshId db, j, l⟩ : RingRow)]).find?
        (fun rr => decide (rr.job_id = j ∧ rr.ring_label = l)) = some ⟨freshId db, j, l⟩
    rw [find?_append_of_none _ hr2]
    simp [List.find?]
  · rw [get_or_create_ring_of_found hr]
    exact ⟨rfl, rfl, rfl, rfl, row, hr, rfl⟩

theorem ingest_scan_ok_elim {db : DB} {p : CreateScanRequest} {r : IngestResponse} {db1 : DB}
    (h : ingest_scan db p = (.ok r, db1)) :
    ∃ oid job rgdb row,
      get_org_id_by_slug db p.org_slug = .ok oid ∧
      ensure_job_exists db p.job_id oid = .ok job ∧
      (job.status = .SCANNING ∨ job.status = .PAUSED) ∧
      get_or_create_ring db p.job_id p.ring_label = (r.ring_id, rgdb) ∧
      rgdb.orgs = db.orgs ∧ rgdb.jobs = db.jobs ∧ rgdb.diamonds = db.diamonds ∧
      rgdb.diamond_images = db.diamond_images ∧
      ring_find rgdb p.job_id p.ring_label = some row ∧ row.id = r.ring_id ∧
      dia_find rgdb p.job_id r.ring_id p.slot_index = none ∧
      r.job_id = p.job_id ∧ r.diamond_id = freshId rgdb ∧
      db1 = { rgdb with
        diamonds := rgdb.diamonds ++ [⟨r.diamond_id, p.job_id, r.ring_id, p.slot_index⟩],
        nextId := rgdb.nextId + 1,
        diamond_images := rgdb.diamond_images ++ ingest_rows r.diamond_id p } := by
  unfold ingest_scan at h
  rcases horg : get_org_id_by_slug db p.org_slug with e | oid
  · rw [horg] at h; exact absurd h (by simp)
  · simp only [horg] at h
    rcases hjob : ensure_job_exists db p.job_id oid with e | job
    · rw [hjob] at h; exact absurd h (by simp)
    · simp only [hjob] at h
      by_cases hst : job.status = .SCANNING ∨ job.status = .PAUSED
      · rw [if_pos hst] at h
        rcases hrg : get_or_create_ring db p.job_id p.ring_label with ⟨rid, rgdb⟩
        simp only [hrg] at h
        rcases hdia : dia_find rgdb p.job_id rid p.slot_index with _ | d
        · simp only [hdia] at h
          simp only [Prod.mk.injEq, Except.ok.injEq] at h
          obtain ⟨hr, hdb⟩ := h
          subst hdb
          subst hr
          have hspec := get_or_create_ring_spec db p.job_id p.ring_label
          rw [hrg] at hspec
          obtain ⟨hE, hF, hG, hH, row, hI, hJ⟩ := hspec
          exact ⟨oid, job, rgdb, row, rfl, hjob, hst, rfl, hE, hF, hG, hH, hI, hJ,
            hdia, rfl, rfl, rfl⟩
        · simp only [hdia] at h
          simp only [Prod.mk.injEq] at h
          exact absurd h.1 (by simp)
      · rw [if_neg hst] at h
        simp only [Prod.mk.injEq] at h
        exact absurd h.1 (by simp)

/-- Claim C4: when an ingest-scan call succeeds, no diamond for its
(job, ring, slot_index) triple existed before and exactly one exists after;
a second ingest-scan for the same (job_id, ring_label, slot_index) (same
org) then fails with 409 Conflict and leaves the database unchanged, so
after both calls exactly one diamond exists for the triple. -/
theorem ingest_same_triple_conflict_on_second (db : DB) (p q : CreateScanRequest)
    (r : IngestResponse) (db1 : DB)
    (h1 : ingest_scan db p = (.ok r, db1))
    (h2 : q.org_slug = p.org_slug) (h3 : q.job_id = p.job_id)
    (h4 : q.ring_label = p.ring_label) (h5 : q.slot_index = p.slot_index) :
    (db.diamonds.filter (fun d =>
        decide (d.job_id = p.job_id ∧ d.ring_id = r.ring_id ∧
          d.slot_index = p.slot_index))).length = 0 ∧
    (db1.diamonds.filter (fun d =>
        decide (d.job_id = p.job_id ∧ d.ring_id = r.ring_id ∧
          d.slot_index = p.slot_index))).length = 1 ∧
    ingest_scan db1 q =
      (.error ⟨409, "Diamond already exists for this job / ring / slot_index", []⟩, db1) := by
  obtain ⟨oid, job, rgdb, row, hA, hB, hC, hD, hE, hF, hG, hH, hI, hJ, hK, hL, hM, hN⟩ :=
    ingest_scan_ok_elim h1
  have hKdb : dia_find db p.job_id r.ring_id p.slot_index = none := by
    unfold dia_find at hK ⊢
    rw [← hG]
    exact hK
  have hfilter0 : db.diamonds.filter (fun d =>
      decide (d.job_id = p.job_id ∧ d.ring_id = r.ring_id ∧
        d.slot_index = p.slot_index)) = [] :=
    filter_nil_of_find?_none hKdb
  have ho1 : db1.orgs = db.orgs := by rw [hN]; exact hE
  have hj1 : db1.jobs = db.jobs := by rw [hN]; exact hF
  have hr1 : db1.rings = rgdb.rings := by rw [hN]
  have hd1 : db1.diamonds =
      rgdb.diamonds ++ [⟨r.diamond_id, p.job_id, r.ring_id, p.slot_index⟩] := by rw [hN]
  refine ⟨by rw [hfilter0]; rfl, ?_, ?_⟩
  · rw [hd1, List.filter_append, hG, hfilter0]
    simp [List.filter]
  · have horg1 : get_org_id_by_slug db1 p.org_slug = .ok oid := by
      rw [get_org_id_congr ho1 p.org_slug]; exact hA
    have hjob1 : ensure_job_exists db1 p.job_id oid = .ok job := by
      rw [ensure_job_congr hj1 p.job_id oid]; exact hB
    have hrow1 : ring_find db1 p.job_id p.ring_label = some row := by
      unfold ring_find at hI ⊢
      rw [hr1]
      exact hI
    have hrg1 : get_or_create_ring db1 p.job_id p.ring_label = (row.id, db1) :=
      get_or_create_ring_of_found hrow1
    have hdia1 : dia_find db1 p.job_id r.ring_id p.slot_index =
        some ⟨r.diamond_id, p.job_id, r.ring_id, p.slot_index⟩ := by
      unfold dia_find
      rw [hd1, hG]
      unfold dia_find at hKdb
      rw [find?_append_of_none _ hKdb]
      simp [List.find?]
    unfold ingest_scan
    rw [h2, h3, h4, h5]
    rw [horg1]
    simp only []
    rw [hjob1]
    simp only []
    rw [if_pos hC]
    simp only [hrg1]
    rw [hJ]
    simp only [hdia1]

/-- Claim C4 witness: on the fresh sample database the first ingest of
coordinate (job-1, A, 0) succeeds creating exactly one diamond, and the
retry of the identical request fails with 409 leaving the database as it
was. -/
theorem ingest_same_triple_conflict_on_second_witness :
    ingest_scan dbS scanReq0 = (.ok ⟨"job-1", "id0", "id1"⟩, dbAfter) ∧
    ((dbS.diamonds.filter (fun d =>
        decide (d.job_id = "job-1" ∧ d.ring_id = "id0" ∧ d.slot_index = 0))).length = 0 ∧
     (dbAfter.diamonds.filter (fun d =>
        decide (d.job_id = "job-1" ∧ d.ring_id = "id0" ∧ d.slot_index = 0))).length = 1 ∧
     ingest_scan dbAfter scanReq0 =
       (.error ⟨409, "Diamond already exists for this job / ring / slot_index", []⟩, dbAfter)) :=
  ⟨by decide,
   ingest_same_triple_conflict_on_second dbS scanReq0 scanReq0 ⟨"job-1", "id0", "id1"⟩ dbAfter
     (by decide) rfl rfl rfl rfl⟩

/-- Claim C9, amended: every successful ingest-scan appends, in the same
handler invocation, exactly one diamond and exactly two diamond_images rows
(one UV_FREE and one ASET) carrying the canonical storage paths, with
original_ready = false; however preview_ready is set to true
unconditionally - the request preview path fields are ignored - so
preview_ready does not depend on whether a preview path was supplied. -/
theorem ingest_appends_two_rows_preview_true_original_false (db : DB) (p : CreateScanRequest)
    (r : IngestResponse) (db1 : DB) (h : ingest_scan db p = (.ok r, db1)) :
    db1.diamonds = db.diamonds ++ [⟨r.diamond_id, p.job_id, r.ring_id, p.slot_index⟩] ∧
    db1.diamond_images = db.diamond_images ++
      [⟨r.diamond_id, .UV_FREE,
        canonical_base p.org_slug p.job_id p.ring_label p.slot_index ++ "_uv_free.jpg",
        canonical_base p.org_slug p.job_id p.ring_label p.slot_index ++ "_uv_free_thumb.jpg",
        true, false, none⟩,
       ⟨r.diamond_id, .ASET,
        canonical_base p.org_slug p.job_id p.ring_label p.slot_index ++ "_aset.jpg",
        canonical_base p.org_slug p.job_id p.ring_label p.slot_index ++ "_aset_thumb.jpg",
        true, false, none⟩] := by
  obtain ⟨oid, job, rgdb, row, hA, hB, hC, hD, hE, hF, hG, hH, hI, hJ, hK, hL, hM, hN⟩ :=
    ingest_scan_ok_elim h
  constructor
  · have : db1.diamonds =
        rgdb.diamonds ++ [⟨r.diamond_id, p.job_id, r.ring_id, p.slot_index⟩] := by rw [hN]
    rw [this, hG]
  · have : db1.diamond_images = rgdb.diamond_images ++ ingest_rows r.diamond_id p := by
      rw [hN]
    rw [this, hH]
    rfl

/-- Claim C9 witness: the sample ingest (which supplies no preview paths)
appends the diamond and its two canonical image rows with preview_ready true
and original_ready false. -/
theorem ingest_appends_two_rows_witness :
    ingest_scan dbS scanReq0 = (.ok ⟨"job-1", "id0", "id1"⟩, dbAfter) ∧
    (dbAfter.diamonds = dbS.diamonds ++ [⟨"id1", "job-1", "id0", 0⟩] ∧
     dbAfter.diamond_images = dbS.diamond_images ++
       [⟨"id1", .UV_FREE, "acme/job-1/A/slot_0_uv_free.jpg",
         "acme/job-1/A/slot_0_uv_free_thumb.jpg", true, false, none⟩,
        ⟨"id1", .ASET, "acme/job-1/A/slot_0_aset.jpg",
         "acme/job-1/A/slot_0_aset_thumb.jpg", true, false, none⟩]) :=
  ⟨by decide,
   ingest_appends_two_rows_preview_true_original_false dbS scanReq0 ⟨"job-1", "id0", "id1"⟩
     dbAfter (by decide)⟩

theorem set_job_images (db : DB) (jid : String) (f : JobRow → JobRow) :
    (set_job db jid f).diamond_images = db.diamond_images := rfl

theorem jobs_pause_images (db : DB) (j s now : String) :
    (jobs_pause db j s now).2.diamond_images = db.diamond_images := by
  unfold jobs_pause
  split
  · rfl
  · split
    · rfl
    · rfl

theorem jobs_resume_images (db : DB) (j s : String) :
    (jobs_resume db j s).2.diamond_images = db.diamond_images := by
  unfold jobs_resume
  split
  · rfl
  · split
    · rfl
    · rfl

theorem jobs_stop_images (db : DB) (j s now : String) :
    (jobs_stop db j s now).2.diamond_images = db.diamond_images := by
  unfold jobs_stop
  split
  · rfl
  · split
    · rfl
    · rfl

theorem ingest_scan_err_images {db : DB} {p : CreateScanRequest} {e : HErr} {db1 : DB}
    (h : ingest_scan db p = (.error e, db1)) :
    db1.diamond_images = db.diamond_images := by
  unfold ingest_scan at h
  rcases h1 : get_org_id_by_slug db p.org_slug with e2 | oid
  · rw [h1] at h
    simp only [Prod.mk.injEq] at h
    rw [← h.2]
  · simp only [h1] at h
    rcases h2 : ensure_job_exists db p.job_id oid with e2 | job
    · rw [h2] at h
      simp only [Prod.mk.injEq] at h
      rw [← h.2]
    · simp only [h2] at h
      by_cases hst : job.status = .SCANNING ∨ job.status = .PAUSED
      · rw [if_pos hst] at h
        rcases hrg : get_or_create_ring db p.job_id p.ring_label with ⟨rid, rgdb⟩
        simp only [hrg] at h
        rcases hdia : dia_find rgdb p.job_id rid p.slot_index with _ | d
        · simp only [hdia] at h
          simp only [Prod.mk.injEq] at h
          exact absurd h.1 (by simp)
        · simp only [hdia] at h
          simp only [Prod.mk.injEq] at h
          have hspec := get_or_create_ring_spec db p.job_id p.ring_label
          rw [hrg] at hspec
          rw [← h.2]
          exact hspec.2.2.2.1
      · rw [if_neg hst] at h
        simp only [Prod.mk.injEq] at h
        rw [← h.2]

theorem ingest_scan_images (db : DB) (p : CreateScanRequest) :
    (ingest_scan db p).2.diamond_images = db.diamond_images ∨
    ∃ did, (ingest_scan db p).2.diamond_images = db.diamond_images ++ ingest_rows did p := by
  rcases hres : ingest_scan db p with ⟨res, db1⟩
  rcases res with e | r
  · left
    exact ingest_scan_err_images hres
  · right
    obtain ⟨oid, job, rgdb, row, hA, hB, hC, hD, hE, hF, hG, hH, hI, hJ, hK, hL, hM, hN⟩ :=
      ingest_scan_ok_elim hres
    refine ⟨r.diamond_id, ?_⟩
    show db1.diamond_images = _
    rw [hN]
    show rgdb.diamond_images ++ _ = _
    rw [hH]

theorem ingest_rows_ready_false (did : String) (p : CreateScanRequest) :
    ∀ r ∈ ingest_rows did p, r.original_ready = false := by
  intro r hr
  simp only [ingest_rows] at hr
  rcases List.mem_cons.mp hr with h | h
  · subst h; rfl
  · rcases List.mem_cons.mp h with h2 | h2
    · subst h2; rfl
    · exact absurd h2 (List.not_mem_nil _)

theorem confirm_originals_images (db : DB) (head : String → String → Nat)
    (p : ConfirmOriginalsRequest) (now : String) :
    (confirm_originals db head p now).2.diamond_images = db.diamond_images ∨
    ∃ did cs, check_images head p p.image_types = .ok (cs, []) ∧
      (confirm_originals db head p now).2.diamond_images =
        mark_ready did now cs db.diamond_images := by
  unfold confirm_originals
  rcases h1 : confirm_lookups db p with e | did
  · left; rfl
  · rcases h2 : check_images head p p.image_types with e | ⟨cs, ms⟩
    · left; rfl
    · rcases ms with _ | ⟨m0, ms'⟩
      · right
        exact ⟨did, cs, rfl, rfl⟩
      · left; rfl

theorem mark_ready_eq_map (did now : String) :
    ∀ (conf : List ImageType) (imgs : List ImageRow),
      mark_ready did now conf imgs = imgs.map (fun r =>
        if r.diamond_id = did ∧ r.image_type ∈ conf then
          { r with original_ready := true, original_uploaded_at := some now }
        else r) := by
  intro conf
  induction conf with
  | nil =>
      intro imgs
      have hid : ∀ r ∈ imgs,
          (if r.diamond_id = did ∧ r.image_type ∈ ([] : List ImageType) then
            { r with original_ready := true, original_uploaded_at := some now }
          else r) = id r := by
        intro r _
        rw [if_neg]
        · rfl
        · rintro ⟨-, hmem⟩
          exact absurd hmem (List.not_mem_nil _)
      show imgs = _
      rw [List.map_congr_left hid, List.map_id]
  | cons t ts ih =>
      intro imgs
      show mark_ready did now ts (mark_one did now t imgs) = _
      rw [ih]
      unfold mark_one
      rw [List.map_map]
      refine List.map_congr_left ?_
      intro r _
      by_cases h1 : r.diamond_id = did
      · by_cases h2 : r.image_type = t
        · simp [Function.comp, h1, h2, List.mem_cons]
        · by_cases h3 : r.image_type ∈ ts <;>
            simp [Function.comp, h1, h2, h3, List.mem_cons]
      · simp [Function.comp, h1]

theorem getD_map_imgs (f : ImageRow → ImageRow) (l : List ImageRow) (i : Nat) :
    (l.map f).getD i defaultImageRow = ((l.get? i).map f).getD defaultImageRow := by
  rw [List.getD_eq_get?, List.get?_map]

theorem ready_true_lt (l1 : List ImageRow) (i : Nat)
    (h : (l1.getD i defaultImageRow).original_ready = true) : i < l1.length := by
  by_contra hc
  rw [List.getD_eq_get?, List.get?_eq_none.mpr (Nat.le_of_not_lt hc)] at h
  exact absurd h (by decide)

theorem getD_append_of_lt (l1 l2 : List ImageRow) (i : Nat) (h : i < l1.length) :
    (l1 ++ l2).getD i defaultImageRow = l1.getD i defaultImageRow := by
  rw [List.getD_eq_get?, List.getD_eq_get?, List.get?_append h]

theorem getD_append_ready_right (l1 l2 : List ImageRow) (i : Nat)
    (h2f : ∀ r ∈ l2, r.original_ready = false) (hge : l1.length ≤ i) :
    ((l1 ++ l2).getD i defaultImageRow).original_ready = false := by
  rw [List.getD_eq_get?, List.get?_append_right hge]
  rcases hl2 : l2.get? (i - l1.length) with _ | r2
  · rfl
  · rw [Option.getD_some]
    exact h2f r2 (List.get?_mem hl2)

/-- Claim C3: across every API operation, a diamond_images row's
original_ready field is monotonic (never reverts true to false), and it can
flip false to true only in a confirm-originals operation in which the
storage existence oracle answered that the original object for that row's
image type exists at the exact canonical path derived from the confirm
coordinate - never from client-supplied data alone. -/
theorem original_ready_monotonic_oracle_gated (db : DB) (op : Op) (i : Nat) :
    ((db.diamond_images.getD i defaultImageRow).original_ready = true →
      ((applyOp db op).diamond_images.getD i defaultImageRow).original_ready = true) ∧
    ((db.diamond_images.getD i defaultImageRow).original_ready = false →
      ((applyOp db op).diamond_images.getD i defaultImageRow).original_ready = true →
      ∃ head p now, op = Op.confirm head p now ∧
        (db.diamond_images.getD i defaultImageRow).image_type ∈ p.image_types ∧
        storage_object_exists head ORIGINALS_BUCKET
          (expected_original_path p (db.diamond_images.getD i defaultImageRow).image_type) =
          .ok true) := by
  rcases op with ⟨j, s, now⟩ | ⟨j, s⟩ | ⟨j, s, now⟩ | ⟨sign, sp⟩ | p | ⟨head, p, now⟩
  · simp only [applyOp]
    rw [jobs_pause_images]
    exact ⟨fun h => h, fun h1 h2 => absurd (h1 ▸ h2) (by decide)⟩
  · simp only [applyOp]
    rw [jobs_resume_images]
    exact ⟨fun h => h, fun h1 h2 => absurd (h1 ▸ h2) (by decide)⟩
  · simp only [applyOp]
    rw [jobs_stop_images]
    exact ⟨fun h => h, fun h1 h2 => absurd (h1 ▸ h2) (by decide)⟩
  · simp only [applyOp]
    exact ⟨fun h => h, fun h1 h2 => absurd (h1 ▸ h2) (by decide)⟩
  · simp only [applyOp]
    rcases ingest_scan_images db p with himg | ⟨did, himg⟩
    · rw [himg]
      exact ⟨fun h => h, fun h1 h2 => absurd (h1 ▸ h2) (by decide)⟩
    · rw [himg]
      constructor
      · intro h
        rw [getD_append_of_lt _ _ _ (ready_true_lt _ _ h)]
        exact h
      · intro h1 h2
        by_cases hlt : i < db.diamond_images.length
        · rw [getD_append_of_lt _ _ _ hlt] at h2
          exact absurd (h1 ▸ h2) (by decide)
        · rw [getD_append_ready_right _ _ _ (ingest_rows_ready_false did p)
            (Nat.le_of_not_lt hlt)] at h2
          exact absurd h2 (by decide)
  · simp only [applyOp]
    rcases confirm_originals_images db head p now with himg | ⟨did, cs, hchk, himg⟩
    · rw [himg]
      exact ⟨fun h => h, fun h1 h2 => absurd (h1 ▸ h2) (by decide)⟩
    · rw [himg, mark_ready_eq_map]
      rcases hget : db.diamond_images.get? i with _ | a
      · have hr : db.diamond_images.getD i defaultImageRow = defaultImageRow := by
          rw [List.getD_eq_get?, hget]
          rfl
        have hr2 : (db.diamond_images.map (fun r =>
            if r.diamond_id = did ∧ r.image_type ∈ cs then
              { r with original_ready := true, original_uploaded_at := some now }
            else r)).getD i defaultImageRow = defaultImageRow := by
          rw [getD_map_imgs, hget]
          rfl
        rw [hr, hr2]
        exact ⟨fun h => h, fun h1 h2 => absurd h2 (by decide)⟩
      · have hr : db.diamond_images.getD i defaultImageRow = a := by
          rw [List.getD_eq_get?, hget]
          rfl
        have hr2 : (db.diamond_images.map (fun r =>
            if r.diamond_id = did ∧ r.image_type ∈ cs then
              { r with original_ready := true, original_uploaded_at := some now }
            else r)).getD i defaultImageRow =
            (if a.diamond_id = did ∧ a.image_type ∈ cs then
              { a with original_ready := true, original_uploaded_at := some now }
            else a) := by
          rw [getD_map_imgs, hget]
          rfl
        rw [hr, hr2]
        by_cases hcond : a.diamond_id = did ∧ a.image_type ∈ cs
        · rw [if_pos hcond]
          constructor
          · intro h
            rfl
          · intro h1 h2
            obtain ⟨hmemP, hex⟩ :=
              check_images_confirmed_mem head p p.image_types cs [] hchk a.image_type hcond.2
            exact ⟨head, p, now, rfl, hmemP, hex⟩
        · rw [if_neg hcond]
          exact ⟨fun h => h, fun h1 h2 => absurd (h1 ▸ h2) (by decide)⟩

/-- Claim C3 witness: instantiation on the sample database and a
confirm-originals operation whose oracle reports both originals present,
evaluating both conjuncts at row index 0. -/
theorem original_ready_monotonic_oracle_gated_witness :
    (((dbI.diamond_images.getD 0 defaultImageRow).original_ready = true →
      ((applyOp dbI (Op.confirm head_both confirmReq0 ("t2"))).diamond_images.getD 0
        defaultImageRow).original_ready = true) ∧
     ((dbI.diamond_images.getD 0 defaultImageRow).original_ready = false →
      ((applyOp dbI (Op.confirm head_both confirmReq0 ("t2"))).diamond_images.getD 0
        defaultImageRow).original_ready = true →
      ∃ head p now, Op.confirm head_both confirmReq0 ("t2") = Op.confirm head p now ∧
        (dbI.diamond_images.getD 0 defaultImageRow).image_type ∈ p.image_types ∧
        storage_object_exists head ORIGINALS_BUCKET
          (expected_original_path p (dbI.diamond_images.getD 0 defaultImageRow).image_type) =
          .ok true)) :=
  original_ready_monotonic_oracle_gated dbI (Op.confirm head_both confirmReq0 ("t2")) 0
